import Mathlib

/-!
Verification of the interview core of the `pocket-stakeholder` repository:
the question generator (`src/interview/question-generator.ts`), the
interview session state machine (`src/interview/interview-session.ts`)
and the programmatic answer providers.  TypeScript code is embedded
shallowly: classes become structures, methods become functions, the JS
`string | null` answer becomes `Option String`, promise rejection becomes
an explicit `Except`, and the progress-callback observer is modelled as an
event log carried in the session state.
-/

namespace PS

/-! ### JavaScript string primitives used by the interview code -/

/-- `isPrefixOfChars pat s` : `pat` is a prefix of `s` (character lists). -/
def isPrefixOfChars : List Char → List Char → Bool
  | [], _ => true
  | _ :: _, [] => false
  | p :: ps, c :: cs => p == c && isPrefixOfChars ps cs

/-- `hasSubstrChars s pat` : `pat` occurs contiguously inside `s`;
models JavaScript `s.includes(pat)` on character lists. -/
def hasSubstrChars : List Char → List Char → Bool
  | [], pat => isPrefixOfChars pat []
  | c :: cs, pat => isPrefixOfChars pat (c :: cs) || hasSubstrChars cs pat

/-- JavaScript `s.includes(pat)`. -/
def jsIncludes (s pat : String) : Bool :=
  hasSubstrChars s.data pat.data

/-- JavaScript `s.toLowerCase()` (per-character lowering suffices for the
ASCII keywords and answers the interview code compares). -/
def jsToLower (s : String) : String :=
  ⟨s.data.map Char.toLower⟩

/-- JavaScript `s.replace(pat, repl)` : replaces the first occurrence only. -/
def jsReplaceFirstChars (pat repl : List Char) : List Char → List Char
  | [] => if isPrefixOfChars pat [] then repl else []
  | c :: cs =>
    if isPrefixOfChars pat (c :: cs) then repl ++ (c :: cs).drop pat.length
    else c :: jsReplaceFirstChars pat repl cs

/-- JavaScript `s.replace(pat, repl)` on strings. -/
def jsReplaceFirst (s pat repl : String) : String :=
  ⟨jsReplaceFirstChars pat.data repl.data s.data⟩

/-! ### Data model (`question-generator.ts`, `types/index.ts`) -/

/-- `DecisionCategory | 'general'` : the category tag carried by questions.
The TypeScript `DecisionCategory` union is the eight non-`general`
constructors; `general` is the extra tag questions may carry. -/
inductive Category
  | architecture
  | library
  | pattern
  | integration
  | dataModel
  | apiDesign
  | security
  | performance
  | general
deriving DecidableEq, Repr, Inhabited

/-- The string each category value denotes in TypeScript. -/
def Category.toStr : Category → String
  | .architecture => "architecture"
  | .library => "library"
  | .pattern => "pattern"
  | .integration => "integration"
  | .dataModel => "data-model"
  | .apiDesign => "api-design"
  | .security => "security"
  | .performance => "performance"
  | .general => "general"

/-- `'core' | 'follow-up'`. -/
inductive QType
  | core
  | followUp
deriving DecidableEq, Repr, Inhabited

/-- `FollowUpTrigger` : conditions under which a follow-up fires.  The JS
optional boolean `alwaysAsk` is modelled as `Bool` with `false` standing
for both `false` and absent (both are falsy exactly where the code tests
it). -/
structure FollowUpTrigger where
  afterQuestionId : String
  triggerKeywords : Option (List String) := none
  alwaysAsk : Bool := false
deriving DecidableEq, Repr, Inhabited

/-- `InterviewQuestion`. -/
structure InterviewQuestion where
  id : String
  text : String
  type : QType
  category : Category
  priority : Nat
  relatedDecisionTitle : Option String := none
  relatedAmbiguityDescription : Option String := none
  followUpTrigger : Option FollowUpTrigger := none
deriving DecidableEq, Repr, Inhabited

/-- `estimatedQuestionCount` of a `QuestionSet`. -/
structure QuestionCount where
  min : Nat
  max : Nat
deriving DecidableEq, Repr, Inhabited

/-- `QuestionSet` (the role union is modelled by its string value). -/
structure QuestionSet where
  role : String
  coreQuestions : List InterviewQuestion
  followUpQuestions : List InterviewQuestion
  estimatedQuestionCount : QuestionCount
deriving DecidableEq, Repr, Inhabited

/-- `InterviewExchange` : a recorded question/answer pair. -/
structure InterviewExchange where
  question : String
  answer : String
  followUpTriggered : Bool
deriving DecidableEq, Repr, Inhabited

/-! ### `selectFollowUps` (question-generator.ts) -/

/-- `selectFollowUps(answer, questionId, followUpQuestions)` : which
follow-ups fire on a given answer.  (The source hoists
`answer.toLowerCase()` into a local `lowerAnswer`; it is inlined here.) -/
def selectFollowUps (answer : String) (questionId : String)
    (followUpQuestions : List InterviewQuestion) : List InterviewQuestion :=
  followUpQuestions.filter fun followUp =>
    match followUp.followUpTrigger with
    | none => false
    | some trigger =>
      if trigger.afterQuestionId ≠ questionId then false
      else if trigger.alwaysAsk then true
      else
        match trigger.triggerKeywords with
        | some keywords =>
          keywords.any fun keyword =>
            jsIncludes (jsToLower answer) (jsToLower keyword)
        | none => false

/-- C2: a follow-up is selected iff it is in the pool, its trigger targets
the answered question, and either `alwaysAsk` is set or some trigger
keyword occurs case-insensitively in the answer. -/
theorem selectFollowUps_mem_iff (answer questionId : String)
    (pool : List InterviewQuestion) (f : InterviewQuestion) :
    f ∈ selectFollowUps answer questionId pool ↔
      f ∈ pool ∧ ∃ t, f.followUpTrigger = some t ∧ t.afterQuestionId = questionId ∧
        (t.alwaysAsk = true ∨
          ∃ k ∈ t.triggerKeywords.getD [],
            jsIncludes (jsToLower answer) (jsToLower k) = true) := by
  unfold selectFollowUps
  rw [List.mem_filter]
  refine and_congr_right fun _ => ?_
  constructor
  · intro hpred
    cases h : f.followUpTrigger with
    | none => simp [h] at hpred
    | some t =>
      simp only [h] at hpred
      by_cases hq : t.afterQuestionId = questionId
      · rw [if_neg (not_not_intro hq)] at hpred
        refine ⟨t, rfl, hq, ?_⟩
        cases ha : t.alwaysAsk with
        | true => exact Or.inl rfl
        | false =>
          rw [ha] at hpred
          rw [if_neg (by simp)] at hpred
          cases hk : t.triggerKeywords with
          | none => rw [hk] at hpred; exact absurd hpred (by simp)
          | some ks =>
            rw [hk] at hpred
            rcases List.any_eq_true.mp hpred with ⟨k, hkm, hki⟩
            refine Or.inr ⟨k, ?_, hki⟩
            simp only [Option.getD_some]
            exact hkm
      · rw [if_pos hq] at hpred
        exact absurd hpred (by simp)
  · rintro ⟨t, ht, hq, hrest⟩
    simp only [ht]
    rw [if_neg (not_not_intro hq)]
    rcases hrest with ha | ⟨k, hkm, hki⟩
    · rw [if_pos ha]
    · cases hak : t.alwaysAsk with
      | true => rw [if_pos rfl]
      | false =>
        rw [if_neg (by simp)]
        cases hk : t.triggerKeywords with
        | none =>
          rw [hk] at hkm
          exact absurd hkm (by simp)
        | some ks =>
          rw [hk] at hkm
          simp only [Option.getD_some] at hkm
          exact List.any_eq_true.mpr ⟨k, hkm, hki⟩

/-! ### Interview session state machine (`interview-session.ts`)

The `InterviewSession` class is embedded as a `Session` record threaded
through pure functions.  The progress callback is modelled by an `events`
log the session appends to; `Date` timestamps are omitted (wall-clock
values outside every claim).  An answer source (the configured
`answerProvider` or `cliAdapter`) is one function from a question to an
`AnswerOutcome`: a thrown promise rejection, or a resolved
`string | null` value (`none` being the null cancellation signal). -/

/-- `InterviewSessionState`. -/
inductive SessionLifecycle
  | idle
  | ready
  | inProgress
  | awaitingAnswer
  | completed
  | cancelled
deriving DecidableEq, Repr, Inhabited

/-- The `type` discriminant of `InterviewProgressEvent`. -/
inductive EventType
  | questionAsked
  | answerReceived
  | followupTriggered
  | sessionCompleted
deriving DecidableEq, Repr, Inhabited

/-- `InterviewProgressEvent`. -/
structure ProgressEvent where
  type : EventType
  question : Option InterviewQuestion := none
  answer : Option String := none
  questionsRemaining : Nat
deriving DecidableEq, Repr

/-- What one call to the answer source does: reject (the promise throws)
or resolve with `string | null`. -/
inductive AnswerOutcome
  | thrown
  | value (a : Option String)
deriving DecidableEq, Repr

/-- The answer source bound to a session. -/
def AnswerSource := InterviewQuestion → AnswerOutcome

/-- The session configuration fields the state machine reads
(`questionSet`, `maxFollowUps`; `answerTimeout` is never consulted by the
session logic and is omitted). -/
structure SessionConfig where
  questionSet : QuestionSet
  maxFollowUps : Nat := 8
deriving Repr

/-- Mutable state of an `InterviewSession` instance, plus the log of
progress events emitted so far. -/
structure Session where
  state : SessionLifecycle
  exchanges : List InterviewExchange
  currentQuestionIndex : Nat
  askedFollowUpIds : List String
  remainingCoreQuestions : List InterviewQuestion
  pendingFollowUps : List InterviewQuestion
  events : List ProgressEvent
deriving DecidableEq, Repr

/-- Constructor: queues populated from the question set, state `ready`. -/
def initSession (qs : QuestionSet) : Session :=
  { state := .ready
    exchanges := []
    currentQuestionIndex := 0
    askedFollowUpIds := []
    remainingCoreQuestions := qs.coreQuestions
    pendingFollowUps := []
    events := [] }

/-- `getQuestionsRemaining()`. -/
def Session.questionsRemaining (s : Session) : Nat :=
  s.remainingCoreQuestions.length + s.pendingFollowUps.length

/-- `emitProgress(event)` : append to the observer log. -/
def emitProgress (s : Session) (e : ProgressEvent) : Session :=
  { s with events := s.events ++ [e] }

/-- JS `Set.add` (insertion-ordered, duplicate-free). -/
def addId (ids : List String) (id : String) : List String :=
  if ids.contains id then ids else ids ++ [id]

/-- One iteration of the follow-up queueing loop inside
`processQuestion` : a triggered follow-up not already asked is pushed
onto the pending queue and a `followup_triggered` event is emitted. -/
def queueOne (acc : Session) (followUp : InterviewQuestion) : Session :=
  if acc.askedFollowUpIds.contains followUp.id then acc
  else
    let acc := { acc with pendingFollowUps := acc.pendingFollowUps ++ [followUp] }
    emitProgress acc
      { type := .followupTriggered
        question := some followUp
        questionsRemaining := acc.questionsRemaining }

/-- The follow-up queueing loop inside `processQuestion`. -/
def queueFollowUps (s : Session) (triggered : List InterviewQuestion) : Session :=
  triggered.foldl queueOne s

/-- First half of `processQuestion(question)` : transition to
`awaiting_answer` and emit the `question_asked` event. -/
def askStep (s : Session) (question : InterviewQuestion) : Session :=
  emitProgress { s with state := .awaitingAnswer }
    { type := .questionAsked
      question := some question
      questionsRemaining := s.questionsRemaining }

/-- Second half of `processQuestion(question)` once a non-null answer
arrived: emit `answer_received`, select the follow-ups fired by the
answer, queue them when the asked-count gate passes, and append the
exchange. -/
def recordAnswer (cfg : SessionConfig) (s : Session)
    (question : InterviewQuestion) (answer : String) : Session :=
  let s := emitProgress s
    { type := .answerReceived
      question := some question
      answer := some answer
      questionsRemaining := s.questionsRemaining }
  let triggered :=
    selectFollowUps answer question.id cfg.questionSet.followUpQuestions
  let fired : Bool :=
    !triggered.isEmpty && s.askedFollowUpIds.length < cfg.maxFollowUps
  let s := if fired then queueFollowUps s triggered else s
  { s with
    exchanges := s.exchanges ++
      [{ question := question.text, answer := answer,
         followUpTriggered := fired }]
    currentQuestionIndex := s.currentQuestionIndex + 1
    state := .inProgress }

/-- `processQuestion(question)` : ask one question and record the answer.
`Except.error` models the answer source throwing out of the method; the
carried session is the state at the throw. -/
def processQuestion (cfg : SessionConfig) (src : AnswerSource)
    (s : Session) (question : InterviewQuestion) : Except Session Session :=
  match src question with
  | .thrown => .error (askStep s question)
  | .value none => .ok { askStep s question with state := .cancelled }
  | .value (some answer) => .ok (recordAnswer cfg (askStep s question) question answer)

/-- Main loop of `start()` over the core-question queue.  The list
argument mirrors `remainingCoreQuestions` (which `processQuestion` never
touches): each iteration shifts the front question out of the state and
processes it, stopping on cancellation. -/
def runCoreQuestions (cfg : SessionConfig) (src : AnswerSource) :
    List InterviewQuestion → Session → Except Session Session
  | [], s => .ok s
  | question :: rest, s =>
    match processQuestion cfg src { s with remainingCoreQuestions := rest } question with
    | .error e => .error e
    | .ok s1 =>
      if s1.state = .cancelled then .ok s1 else runCoreQuestions cfg src rest s1

/-- Second loop of `start()` : drain the pending follow-up queue (which
may grow while draining).  `fuel` bounds the iterations; `none` means the
bound was hit (a terminating run is one for which some fuel suffices). -/
def runFollowUps (cfg : SessionConfig) (src : AnswerSource) :
    Nat → Session → Option (Except Session Session)
  | 0, s =>
    if s.state = .cancelled then some (.ok s)
    else
      match s.pendingFollowUps with
      | [] => some (.ok s)
      | _ :: _ => none
  | fuel + 1, s =>
    if s.state = .cancelled then some (.ok s)
    else
      match s.pendingFollowUps with
      | [] => some (.ok s)
      | followUp :: rest =>
        let s1 := { s with pendingFollowUps := rest }
        if s1.askedFollowUpIds.contains followUp.id then
          runFollowUps cfg src fuel s1
        else
          match processQuestion cfg src s1 followUp with
          | .error e => some (.error e)
          | .ok s2 =>
            runFollowUps cfg src fuel
              { s2 with askedFollowUpIds := addId s2.askedFollowUpIds followUp.id }

/-- What a finished `start()` call did: resolve with the state reached, or
rethrow an answer-source exception (after the catch block forced the state
to `cancelled`). -/
inductive StartResult
  | ok (s : Session)
  | threw (s : Session)
deriving DecidableEq, Repr

/-- `start()`.  Resolves with the final session (its `exchanges` field is
the returned list), rethrows answer-source exceptions, and fails without
entering the try block when the state is not `ready`. -/
def start (cfg : SessionConfig) (src : AnswerSource) (fuel : Nat)
    (s0 : Session) : Option StartResult :=
  if s0.state ≠ .ready then some (.threw s0)
  else
    let s := { s0 with state := .inProgress, exchanges := [] }
    match runCoreQuestions cfg src s.remainingCoreQuestions s with
    | .error e => some (.threw { e with state := .cancelled })
    | .ok s1 =>
      match runFollowUps cfg src fuel s1 with
      | none => none
      | some (.error e) => some (.threw { e with state := .cancelled })
      | some (.ok s2) =>
        let s3 := if s2.state = .cancelled then s2 else { s2 with state := .completed }
        some (.ok (emitProgress s3 { type := .sessionCompleted, questionsRemaining := 0 }))

/-- `InterviewSessionSnapshot` (the optional `startedAt`/`completedAt`
`Date` fields are omitted, as are all timestamps in this model). -/
structure InterviewSessionSnapshot where
  role : String
  state : SessionLifecycle
  exchanges : List InterviewExchange
  currentQuestionIndex : Nat
  askedFollowUpIds : List String
  remainingCoreQuestionIds : List String
  remainingFollowUpIds : List String
deriving DecidableEq, Repr

/-- `createSnapshot()`. -/
def createSnapshot (cfg : SessionConfig) (s : Session) : InterviewSessionSnapshot :=
  { role := cfg.questionSet.role
    state := s.state
    exchanges := s.exchanges
    currentQuestionIndex := s.currentQuestionIndex
    askedFollowUpIds := s.askedFollowUpIds
    remainingCoreQuestionIds := s.remainingCoreQuestions.map (fun q => q.id)
    remainingFollowUpIds := s.pendingFollowUps.map (fun q => q.id) }

/-- `restoreFromSnapshot(snapshot)` : only legal in `ready`/`idle`;
queued ids are re-resolved against the bound question set and
unresolvable ids are silently dropped (`find` + `filter` = `filterMap`).
(`new Set(...)` on `askedFollowUpIds` preserves insertion order; snapshot
id lists produced by `createSnapshot` are duplicate-free.) -/
def restoreFromSnapshot (cfg : SessionConfig) (s : Session)
    (snapshot : InterviewSessionSnapshot) : Except Session Session :=
  if s.state ≠ .ready ∧ s.state ≠ .idle then .error s
  else
    .ok { s with
          state := snapshot.state
          exchanges := snapshot.exchanges
          currentQuestionIndex := snapshot.currentQuestionIndex
          askedFollowUpIds := snapshot.askedFollowUpIds
          remainingCoreQuestions := snapshot.remainingCoreQuestionIds.filterMap
            (fun id => cfg.questionSet.coreQuestions.find? (fun q => q.id == id))
          pendingFollowUps := snapshot.remainingFollowUpIds.filterMap
            (fun id => cfg.questionSet.followUpQuestions.find? (fun q => q.id == id)) }

/-! ### `MapAnswerProvider` -/

/-- `MapAnswerProvider` : answers keyed by question id (entries kept in
`Map` insertion order, keys unique), plus `defaultAnswer ?? null`. -/
structure MapAnswerProvider where
  answers : List (String × String)
  defaultAnswer : Option String
deriving DecidableEq, Repr

/-- `MapAnswerProvider.provideAnswer(question)` : id lookup first, then a
scan for an entry whose key and the question text contain one another,
then the default. -/
def MapAnswerProvider.provideAnswer (p : MapAnswerProvider)
    (question : InterviewQuestion) : Option String :=
  match p.answers.lookup question.id with
  | some answer => some answer
  | none =>
    match p.answers.find?
        (fun kv => jsIncludes question.text kv.1 || jsIncludes kv.1 question.text) with
    | some kv => some kv.2
    | none => p.defaultAnswer

/-! ### C1: the follow-up cap (concrete run)

`start()` checks `maxFollowUps` only when *queueing* follow-ups
(`processQuestion` requires `askedFollowUpIds.size < maxFollowUps` before
pushing), never when *dequeuing* them: the drain loop at the end of
`start()` asks every queued follow-up.  During core-question processing
`askedFollowUpIds` is still empty, so any number of follow-ups get queued
and then all get asked.  The run below asks 2 distinct follow-ups under
`maxFollowUps = 1`. -/

def qC1core : InterviewQuestion :=
  { id := "c1", text := "Q1", type := .core, category := .general, priority := 1 }

def qC1f1 : InterviewQuestion :=
  { id := "f1", text := "F1", type := .followUp, category := .general, priority := 10,
    followUpTrigger := some { afterQuestionId := "c1", alwaysAsk := true } }

def qC1f2 : InterviewQuestion :=
  { id := "f2", text := "F2", type := .followUp, category := .general, priority := 11,
    followUpTrigger := some { afterQuestionId := "c1", alwaysAsk := true } }

def qsC1 : QuestionSet :=
  { role := "tech-lead"
    coreQuestions := [qC1core]
    followUpQuestions := [qC1f1, qC1f2]
    estimatedQuestionCount := { min := 1, max := 2 } }

def cfgC1 : SessionConfig := { questionSet := qsC1, maxFollowUps := 1 }

/-- An answer source that always answers `"ok"`. -/
def srcAlwaysOk : AnswerSource := fun _ => .value (some "ok")

/-- The run of C1's failing input. -/
def runC1 : Option StartResult := start cfgC1 srcAlwaysOk 4 (initSession qsC1)

/-- Observables of `runC1` : asked follow-up ids, exchange count, final
lifecycle state (when `start` resolved). -/
def obsC1 : Option (List String × Nat × SessionLifecycle) :=
  match runC1 with
  | some (.ok s) => some (s.askedFollowUpIds, s.exchanges.length, s.state)
  | _ => none

/-- C1: with `maxFollowUps = 1` and one core question whose answer
triggers two always-ask follow-ups, the session asks **2** distinct
follow-up ids (3 exchanges in total) — the configured cap on asked
follow-ups is exceeded, refuting the claimed invariant and the
`maxFollowUps` documentation ("Maximum follow-up questions to ask"). -/
theorem followUpCap_exceeded_on_concrete_run :
    obsC1 = some (["f1", "f2"], 3, .completed) ∧ cfgC1.maxFollowUps = 1 :=
  ⟨rfl, rfl⟩

/-! ### Invariant lemmas about the processing steps -/

theorem queueOne_fields (s : Session) (f : InterviewQuestion) :
    (queueOne s f).remainingCoreQuestions = s.remainingCoreQuestions ∧
    (queueOne s f).exchanges = s.exchanges ∧
    (queueOne s f).state = s.state ∧
    (queueOne s f).currentQuestionIndex = s.currentQuestionIndex ∧
    (queueOne s f).askedFollowUpIds = s.askedFollowUpIds := by
  unfold queueOne
  split <;> simp [emitProgress]

theorem queueOne_events (s : Session) (f : InterviewQuestion) :
    ∀ e ∈ (queueOne s f).events, e ∈ s.events ∨ e.type = .followupTriggered := by
  unfold queueOne
  split
  · exact fun e he => Or.inl he
  · intro e he
    simp only [emitProgress, List.mem_append, List.mem_singleton] at he
    rcases he with he | he
    · exact Or.inl he
    · subst he; exact Or.inr rfl

theorem queueFollowUps_fields (l : List InterviewQuestion) : ∀ s : Session,
    (queueFollowUps s l).remainingCoreQuestions = s.remainingCoreQuestions ∧
    (queueFollowUps s l).exchanges = s.exchanges ∧
    (queueFollowUps s l).state = s.state ∧
    (queueFollowUps s l).currentQuestionIndex = s.currentQuestionIndex ∧
    (queueFollowUps s l).askedFollowUpIds = s.askedFollowUpIds := by
  induction l with
  | nil => exact fun s => ⟨rfl, rfl, rfl, rfl, rfl⟩
  | cons f rest ih =>
    intro s
    have h1 := queueOne_fields s f
    have h2 := ih (queueOne s f)
    exact ⟨h2.1.trans h1.1, h2.2.1.trans h1.2.1, h2.2.2.1.trans h1.2.2.1,
      h2.2.2.2.1.trans h1.2.2.2.1, h2.2.2.2.2.trans h1.2.2.2.2⟩

theorem queueFollowUps_events (l : List InterviewQuestion) : ∀ s : Session,
    ∀ e ∈ (queueFollowUps s l).events, e ∈ s.events ∨ e.type = .followupTriggered := by
  induction l with
  | nil => exact fun s e he => Or.inl he
  | cons f rest ih =>
    intro s e he
    rcases ih (queueOne s f) e he with h | h
    · exact queueOne_events s f e h
    · exact Or.inr h

theorem queueFollowUps_core (s : Session) (l : List InterviewQuestion) :
    (queueFollowUps s l).remainingCoreQuestions = s.remainingCoreQuestions :=
  (queueFollowUps_fields l s).1

theorem queueFollowUps_exchanges (s : Session) (l : List InterviewQuestion) :
    (queueFollowUps s l).exchanges = s.exchanges :=
  (queueFollowUps_fields l s).2.1

theorem queueFollowUps_state (s : Session) (l : List InterviewQuestion) :
    (queueFollowUps s l).state = s.state :=
  (queueFollowUps_fields l s).2.2.1

theorem queueFollowUps_index (s : Session) (l : List InterviewQuestion) :
    (queueFollowUps s l).currentQuestionIndex = s.currentQuestionIndex :=
  (queueFollowUps_fields l s).2.2.2.1

theorem queueFollowUps_asked (s : Session) (l : List InterviewQuestion) :
    (queueFollowUps s l).askedFollowUpIds = s.askedFollowUpIds :=
  (queueFollowUps_fields l s).2.2.2.2

theorem askStep_fields (s : Session) (q : InterviewQuestion) :
    (askStep s q).remainingCoreQuestions = s.remainingCoreQuestions ∧
    (askStep s q).exchanges = s.exchanges ∧
    (askStep s q).state = .awaitingAnswer ∧
    (askStep s q).currentQuestionIndex = s.currentQuestionIndex ∧
    (askStep s q).askedFollowUpIds = s.askedFollowUpIds ∧
    (askStep s q).pendingFollowUps = s.pendingFollowUps ∧
    (askStep s q).events = s.events ++
      [{ type := .questionAsked, question := some q,
         questionsRemaining := s.questionsRemaining }] := by
  unfold askStep
  simp [emitProgress, Session.questionsRemaining]

theorem recordAnswer_fields (cfg : SessionConfig) (s : Session)
    (q : InterviewQuestion) (ans : String) :
    (recordAnswer cfg s q ans).remainingCoreQuestions = s.remainingCoreQuestions ∧
    (recordAnswer cfg s q ans).state = .inProgress ∧
    (recordAnswer cfg s q ans).currentQuestionIndex = s.currentQuestionIndex + 1 ∧
    (recordAnswer cfg s q ans).askedFollowUpIds = s.askedFollowUpIds ∧
    (recordAnswer cfg s q ans).exchanges.length = s.exchanges.length + 1 := by
  unfold recordAnswer
  dsimp only
  split <;>
    simp [emitProgress, queueFollowUps_core, queueFollowUps_exchanges,
      queueFollowUps_index, queueFollowUps_asked]

theorem recordAnswer_events (cfg : SessionConfig) (s : Session)
    (q : InterviewQuestion) (ans : String) :
    ∀ e ∈ (recordAnswer cfg s q ans).events,
      e ∈ s.events ∨ e.type ≠ .sessionCompleted := by
  unfold recordAnswer
  intro e he
  dsimp only at he
  split at he
  · rcases queueFollowUps_events _ _ e he with h | h
    · simp only [emitProgress, List.mem_append, List.mem_singleton] at h
      rcases h with h | h
      · exact Or.inl h
      · subst h; exact Or.inr (by simp)
    · exact Or.inr (by rw [h]; simp)
  · simp only [emitProgress, List.mem_append, List.mem_singleton] at he
    rcases he with h | h
    · exact Or.inl h
    · subst h; exact Or.inr (by simp)

theorem processQuestion_thrown (cfg : SessionConfig) (src : AnswerSource)
    (s : Session) (q : InterviewQuestion) (h : src q = .thrown) :
    processQuestion cfg src s q = .error (askStep s q) := by
  unfold processQuestion
  rw [h]

theorem processQuestion_null (cfg : SessionConfig) (src : AnswerSource)
    (s : Session) (q : InterviewQuestion) (h : src q = .value none) :
    processQuestion cfg src s q = .ok { askStep s q with state := .cancelled } := by
  unfold processQuestion
  rw [h]

theorem processQuestion_answered (cfg : SessionConfig) (src : AnswerSource)
    (s : Session) (q : InterviewQuestion) (ans : String)
    (h : src q = .value (some ans)) :
    processQuestion cfg src s q = .ok (recordAnswer cfg (askStep s q) q ans) := by
  unfold processQuestion
  rw [h]

/-- What one successful `processQuestion` call does to the session fields
every loop-level invariant depends on. -/
theorem processQuestion_ok_inv (cfg : SessionConfig) (src : AnswerSource)
    (s : Session) (q : InterviewQuestion) (s' : Session)
    (h : processQuestion cfg src s q = .ok s') :
    s'.remainingCoreQuestions = s.remainingCoreQuestions ∧
    s'.askedFollowUpIds = s.askedFollowUpIds ∧
    (s'.state = .cancelled ∧ s'.exchanges = s.exchanges ∧
        s'.currentQuestionIndex = s.currentQuestionIndex ∧
        s'.pendingFollowUps = s.pendingFollowUps ∨
      s'.state = .inProgress ∧ s'.exchanges.length = s.exchanges.length + 1 ∧
        s'.currentQuestionIndex = s.currentQuestionIndex + 1) ∧
    (∀ e ∈ s'.events, e ∈ s.events ∨ e.type ≠ .sessionCompleted) := by
  cases hsrc : src q with
  | thrown =>
    rw [processQuestion_thrown cfg src s q hsrc] at h
    exact absurd h (by simp)
  | value a =>
    cases a with
    | none =>
      rw [processQuestion_null cfg src s q hsrc] at h
      injection h with h
      subst h
      have ha := askStep_fields s q
      refine ⟨ha.1, ha.2.2.2.2.1, Or.inl ⟨rfl, ha.2.1, ha.2.2.2.1, ha.2.2.2.2.2.1⟩, ?_⟩
      intro e he
      have he' : e ∈ (askStep s q).events := he
      rw [ha.2.2.2.2.2.2] at he'
      rcases List.mem_append.mp he' with h' | h'
      · exact Or.inl h'
      · rw [List.mem_singleton.mp h']; exact Or.inr (by simp)
    | some ans =>
      rw [processQuestion_answered cfg src s q ans hsrc] at h
      injection h with h
      subst h
      have ha := askStep_fields s q
      have hr := recordAnswer_fields cfg (askStep s q) q ans
      refine ⟨hr.1.trans ha.1, hr.2.2.2.1.trans ha.2.2.2.2.1,
        Or.inr ⟨hr.2.1, ?_, ?_⟩, ?_⟩
      · rw [hr.2.2.2.2, ha.2.1]
      · rw [hr.2.2.1, ha.2.2.2.1]
      · intro e he
        rcases recordAnswer_events cfg (askStep s q) q ans e he with h' | h'
        · rw [ha.2.2.2.2.2.2] at h'
          rcases List.mem_append.mp h' with h'' | h''
          · exact Or.inl h''
          · rw [List.mem_singleton.mp h'']; exact Or.inr (by simp)
        · exact Or.inr h'

/-- What a completed core-question loop guarantees. -/
theorem runCore_ok_inv (cfg : SessionConfig) (src : AnswerSource) :
    ∀ (l : List InterviewQuestion) (s s' : Session),
      runCoreQuestions cfg src l s = .ok s' →
      ((∀ e ∈ s.events, e.type ≠ .sessionCompleted) →
        ∀ e ∈ s'.events, e.type ≠ .sessionCompleted) ∧
      (s.exchanges.length = s.currentQuestionIndex →
        s'.exchanges.length = s'.currentQuestionIndex) ∧
      s'.askedFollowUpIds = s.askedFollowUpIds ∧
      (l = [] ∧ s' = s ∨ s'.state = .cancelled ∨
        (s'.state = .inProgress ∧ s'.remainingCoreQuestions = [])) := by
  intro l
  induction l with
  | nil =>
    intro s s' h
    injection h with h
    subst h
    exact ⟨fun h => h, fun h => h, rfl, Or.inl ⟨rfl, rfl⟩⟩
  | cons q rest ih =>
    intro s s' h
    unfold runCoreQuestions at h
    revert h
    cases hp : processQuestion cfg src { s with remainingCoreQuestions := rest } q with
    | error e => intro h; exact absurd h (by simp)
    | ok s1 =>
      intro h
      dsimp only at h
      have hinv := processQuestion_ok_inv cfg src _ q s1 hp
      dsimp only at hinv
      have hev1 : (∀ e ∈ s.events, e.type ≠ .sessionCompleted) →
          ∀ e ∈ s1.events, e.type ≠ .sessionCompleted := by
        intro hall e he
        rcases hinv.2.2.2 e he with h' | h'
        · exact hall e h'
        · exact h'
      have hxi1 : s.exchanges.length = s.currentQuestionIndex →
          s1.exchanges.length = s1.currentQuestionIndex := by
        intro hxi
        rcases hinv.2.2.1 with ⟨_, hx, hc, _⟩ | ⟨_, hx, hc⟩
        · rw [hx, hc]; exact hxi
        · rw [hx, hc, hxi]
      by_cases hcan : s1.state = .cancelled
      · rw [if_pos hcan] at h
        injection h with h
        subst h
        exact ⟨hev1, hxi1, hinv.2.1, Or.inr (Or.inl hcan)⟩
      · rw [if_neg hcan] at h
        have hrec := ih s1 s' h
        refine ⟨fun hall => hrec.1 (hev1 hall), fun hxi => hrec.2.1 (hxi1 hxi),
          hrec.2.2.1.trans hinv.2.1, ?_⟩
        rcases hrec.2.2.2 with ⟨hrest, hs⟩ | hcase | hcase
        · subst hs
          rcases hinv.2.2.1 with ⟨hc, _⟩ | ⟨hc, _⟩
          · exact absurd hc hcan
          · refine Or.inr (Or.inr ⟨hc, ?_⟩)
            rw [hinv.1, hrest]
        · exact Or.inr (Or.inl hcase)
        · exact Or.inr (Or.inr hcase)

/-- What a completed follow-up drain guarantees. -/
theorem runFollowUps_ok_inv (cfg : SessionConfig) (src : AnswerSource) :
    ∀ (fuel : Nat) (s s' : Session),
      runFollowUps cfg src fuel s = some (.ok s') →
      ((∀ e ∈ s.events, e.type ≠ .sessionCompleted) →
        ∀ e ∈ s'.events, e.type ≠ .sessionCompleted) ∧
      (s.exchanges.length = s.currentQuestionIndex →
        s'.exchanges.length = s'.currentQuestionIndex) ∧
      s'.remainingCoreQuestions = s.remainingCoreQuestions ∧
      (s'.state = .cancelled ∨ s'.pendingFollowUps = []) := by
  intro fuel
  induction fuel with
  | zero =>
    intro s s' h
    unfold runFollowUps at h
    by_cases hcan : s.state = .cancelled
    · rw [if_pos hcan] at h
      injection h with h
      injection h with h
      subst h
      exact ⟨fun h => h, fun h => h, rfl, Or.inl hcan⟩
    · rw [if_neg hcan] at h
      revert h
      cases hpend : s.pendingFollowUps with
      | nil =>
        intro h
        injection h with h
        injection h with h
        subst h
        exact ⟨fun h => h, fun h => h, rfl, Or.inr hpend⟩
      | cons a as => intro h; exact absurd h (by simp)
  | succ fuel ih =>
    intro s s' h
    unfold runFollowUps at h
    by_cases hcan : s.state = .cancelled
    · rw [if_pos hcan] at h
      injection h with h
      injection h with h
      subst h
      exact ⟨fun h => h, fun h => h, rfl, Or.inl hcan⟩
    · rw [if_neg hcan] at h
      revert h
      cases hpend : s.pendingFollowUps with
      | nil =>
        intro h
        injection h with h
        injection h with h
        subst h
        exact ⟨fun h => h, fun h => h, rfl, Or.inr hpend⟩
      | cons followUp rest =>
        intro h
        dsimp only at h
        by_cases hcont : ({ s with pendingFollowUps := rest } : Session).askedFollowUpIds.contains followUp.id = true
        · rw [if_pos hcont] at h
          have hrec := ih _ s' h
          exact ⟨hrec.1, hrec.2.1, hrec.2.2.1, hrec.2.2.2⟩
        · rw [if_neg hcont] at h
          revert h
          cases hp : processQuestion cfg src { s with pendingFollowUps := rest } followUp with
          | error e => intro h; exact absurd h (by simp)
          | ok s2 =>
            intro h
            dsimp only at h
            have hinv := processQuestion_ok_inv cfg src _ followUp s2 hp
            dsimp only at hinv
            have hrec := ih _ s' h
            refine ⟨?_, ?_, ?_, hrec.2.2.2⟩
            · intro hall
              refine hrec.1 ?_
              intro e he
              rcases hinv.2.2.2 e he with h' | h'
              · exact hall e h'
              · exact h'
            · intro hxi
              refine hrec.2.1 ?_
              rcases hinv.2.2.1 with ⟨_, hx, hc, _⟩ | ⟨_, hx, hc⟩
              · rw [hx, hc]; exact hxi
              · rw [hx, hc, hxi]
            · rw [hrec.2.2.1]; exact hinv.1

theorem runCore_cons (cfg : SessionConfig) (src : AnswerSource)
    (q : InterviewQuestion) (rest : List InterviewQuestion) (s : Session) :
    runCoreQuestions cfg src (q :: rest) s =
      match processQuestion cfg src { s with remainingCoreQuestions := rest } q with
      | .error e => .error e
      | .ok s1 =>
        if s1.state = .cancelled then .ok s1 else runCoreQuestions cfg src rest s1 := rfl

theorem runFollowUps_cancelled (cfg : SessionConfig) (src : AnswerSource)
    (fuel : Nat) (s : Session) (h : s.state = .cancelled) :
    runFollowUps cfg src fuel s = some (.ok s) := by
  cases fuel <;> · unfold runFollowUps; rw [if_pos h]

theorem runFollowUps_empty (cfg : SessionConfig) (src : AnswerSource)
    (fuel : Nat) (s : Session) (h : s.pendingFollowUps = []) :
    runFollowUps cfg src fuel s = some (.ok s) := by
  cases fuel <;>
    · unfold runFollowUps
      by_cases hcan : s.state = .cancelled
      · rw [if_pos hcan]
      · rw [if_neg hcan, h]

/-- Evaluation of `start` on a `ready` session. -/
theorem start_ready_eq (cfg : SessionConfig) (src : AnswerSource) (fuel : Nat)
    (s0 : Session) (h0 : s0.state = .ready) :
    start cfg src fuel s0 =
      match runCoreQuestions cfg src s0.remainingCoreQuestions
          { s0 with state := .inProgress, exchanges := [] } with
      | .error e => some (.threw { e with state := .cancelled })
      | .ok s1 =>
        match runFollowUps cfg src fuel s1 with
        | none => none
        | some (.error e) => some (.threw { e with state := .cancelled })
        | some (.ok s2) =>
          some (.ok (emitProgress
            (if s2.state = .cancelled then s2 else { s2 with state := .completed })
            { type := .sessionCompleted, questionsRemaining := 0 })) := by
  unfold start
  rw [if_neg (not_not_intro h0)]

/-- Case analysis for a `start` call that resolved. -/
theorem start_ok_cases (cfg : SessionConfig) (src : AnswerSource) (fuel : Nat)
    (s0 s : Session) (h : start cfg src fuel s0 = some (.ok s))
    (h0 : s0.state = .ready) :
    ∃ s1 s2, runCoreQuestions cfg src s0.remainingCoreQuestions
        { s0 with state := .inProgress, exchanges := [] } = .ok s1 ∧
      runFollowUps cfg src fuel s1 = some (.ok s2) ∧
      s = emitProgress
        (if s2.state = .cancelled then s2 else { s2 with state := .completed })
        { type := .sessionCompleted, questionsRemaining := 0 } := by
  rw [start_ready_eq cfg src fuel s0 h0] at h
  revert h
  cases hc : runCoreQuestions cfg src s0.remainingCoreQuestions
      { s0 with state := .inProgress, exchanges := [] } with
  | error e => intro h; exact absurd h (by simp)
  | ok s1 =>
    intro h
    dsimp only at h
    revert h
    cases hf : runFollowUps cfg src fuel s1 with
    | none => intro h; exact absurd h (by simp)
    | some r =>
      cases r with
      | error e => intro h; exact absurd h (by simp)
      | ok s2 =>
        intro h
        dsimp only at h
        injection h with h
        injection h with h
        exact ⟨s1, s2, rfl, hf, h.symm⟩

/-- A rethrowing `start` call from a `ready` session left the session
`cancelled` (the catch block forces the state before rethrowing). -/
theorem start_threw_cancelled (cfg : SessionConfig) (src : AnswerSource)
    (fuel : Nat) (s0 s : Session) (h : start cfg src fuel s0 = some (.threw s))
    (h0 : s0.state = .ready) :
    s.state = .cancelled := by
  rw [start_ready_eq cfg src fuel s0 h0] at h
  revert h
  cases hc : runCoreQuestions cfg src s0.remainingCoreQuestions
      { s0 with state := .inProgress, exchanges := [] } with
  | error e =>
    intro h
    dsimp only at h
    injection h with h
    injection h with h
    rw [← h]
  | ok s1 =>
    intro h
    dsimp only at h
    revert h
    cases hf : runFollowUps cfg src fuel s1 with
    | none => intro h; exact absurd h (by simp)
    | some r =>
      cases r with
      | error e =>
        intro h
        dsimp only at h
        injection h with h
        injection h with h
        rw [← h]
      | ok s2 => intro h; exact absurd h (by simp)

/-- With an empty follow-up pool, `recordAnswer` just appends the
exchange (nothing fires). -/
theorem recordAnswer_nopool (cfg : SessionConfig) (s : Session)
    (q : InterviewQuestion) (ans : String)
    (hpool : cfg.questionSet.followUpQuestions = []) :
    recordAnswer cfg s q ans =
      { s with
        exchanges := s.exchanges ++
          [{ question := q.text, answer := ans, followUpTriggered := false }]
        currentQuestionIndex := s.currentQuestionIndex + 1
        state := .inProgress
        events := s.events ++
          [{ type := .answerReceived, question := some q, answer := some ans,
             questionsRemaining := s.questionsRemaining }] } := by
  unfold recordAnswer
  dsimp only
  rw [hpool]
  rfl

/-- Draining the core queue when every answer arrives and the follow-up
pool is empty: one exchange per question, in order. -/
theorem runCore_all_answered (cfg : SessionConfig) (src : AnswerSource)
    (f : InterviewQuestion → String)
    (hpool : cfg.questionSet.followUpQuestions = [])
    (hsrc : ∀ q, src q = .value (some (f q))) :
    ∀ (l : List InterviewQuestion) (s : Session), s.state = .inProgress →
      ∃ s', runCoreQuestions cfg src l s = .ok s' ∧
        s'.exchanges = s.exchanges ++ l.map (fun q =>
          { question := q.text, answer := f q, followUpTriggered := false }) ∧
        s'.pendingFollowUps = s.pendingFollowUps ∧
        s'.state = .inProgress := by
  intro l
  induction l with
  | nil =>
    intro s hs
    exact ⟨s, rfl, by simp, rfl, hs⟩
  | cons q rest ih =>
    intro s hs
    have hpq := processQuestion_answered cfg src
      { s with remainingCoreQuestions := rest } q (f q) (hsrc q)
    have hrec := recordAnswer_nopool cfg
      (askStep { s with remainingCoreQuestions := rest } q) q (f q) hpool
    obtain ⟨s', hrun, hex, hpend, hst⟩ :=
      ih (recordAnswer cfg (askStep { s with remainingCoreQuestions := rest } q) q (f q))
        (by rw [hrec])
    refine ⟨s', ?_, ?_, ?_, hst⟩
    · rw [runCore_cons, hpq]
      dsimp only
      rw [if_neg (by rw [hrec]; simp)]
      exact hrun
    · rw [hex, hrec]
      dsimp only [askStep, emitProgress]
      simp
    · rw [hpend, hrec]
      rfl

/-- C3: with an empty follow-up pool and an answer source resolving every
question, `start()` resolves in state `completed` with exactly one
exchange per core question, question texts in core order. -/
theorem start_core_only_completes (qs : QuestionSet) (maxFU fuel : Nat)
    (src : AnswerSource) (f : InterviewQuestion → String)
    (hpool : qs.followUpQuestions = [])
    (hsrc : ∀ q, src q = .value (some (f q))) :
    ∃ s, start ⟨qs, maxFU⟩ src fuel (initSession qs) = some (.ok s) ∧
      s.state = .completed ∧
      s.exchanges.length = qs.coreQuestions.length ∧
      s.exchanges.map (fun ex => ex.question) =
        qs.coreQuestions.map (fun q => q.text) := by
  obtain ⟨role, core, fus, est⟩ := qs
  dsimp only at hpool
  subst hpool
  obtain ⟨s1, hrun, hex, hpend, hst⟩ :=
    runCore_all_answered ⟨⟨role, core, [], est⟩, maxFU⟩ src f rfl hsrc core
      { state := .inProgress, exchanges := [], currentQuestionIndex := 0,
        askedFollowUpIds := [], remainingCoreQuestions := core,
        pendingFollowUps := [], events := [] } rfl
  have hpend2 : s1.pendingFollowUps = [] := by rw [hpend]
  have hfu := runFollowUps_empty ⟨⟨role, core, [], est⟩, maxFU⟩ src fuel s1 hpend2
  rw [start_ready_eq _ _ _ _ rfl]
  dsimp only [initSession]
  rw [hrun]
  dsimp only
  rw [hfu]
  dsimp only
  rw [if_neg (by rw [hst]; simp)]
  refine ⟨_, rfl, rfl, ?_, ?_⟩
  · dsimp only [emitProgress]
    rw [hex]
    simp
  · dsimp only [emitProgress]
    rw [hex]
    simp

/-- C4: a null answer cancels: for the first core question it yields an
empty exchange list and terminal state `cancelled`; in general a null
answer makes `processQuestion` stop in `cancelled` without recording the
in-flight question. -/
theorem cancellation_signal_stops_session :
    (∀ (qs : QuestionSet) (maxFU fuel : Nat) (src : AnswerSource)
        (q : InterviewQuestion) (rest : List InterviewQuestion),
        qs.coreQuestions = q :: rest → src q = .value none →
        ∃ s, start ⟨qs, maxFU⟩ src fuel (initSession qs) = some (.ok s) ∧
          s.exchanges = [] ∧ s.state = .cancelled) ∧
    (∀ (cfg : SessionConfig) (src : AnswerSource) (s : Session)
        (q : InterviewQuestion), src q = .value none →
        ∃ s', processQuestion cfg src s q = .ok s' ∧ s'.state = .cancelled ∧
          s'.exchanges = s.exchanges) := by
  constructor
  · intro qs maxFU fuel src q rest hq hnull
    obtain ⟨role, core, fus, est⟩ := qs
    dsimp only at hq
    subst hq
    cases fuel with
    | zero =>
      rw [start_ready_eq _ _ _ _ rfl]
      dsimp only [initSession]
      rw [runCore_cons, processQuestion_null _ _ _ _ hnull]
      dsimp only
      rw [if_pos rfl]
      dsimp only
      rw [runFollowUps_cancelled _ _ _ _ rfl]
      dsimp only
      rw [if_pos rfl]
      exact ⟨_, rfl, rfl, rfl⟩
    | succ n =>
      rw [start_ready_eq _ _ _ _ rfl]
      dsimp only [initSession]
      rw [runCore_cons, processQuestion_null _ _ _ _ hnull]
      dsimp only
      rw [if_pos rfl]
      dsimp only
      rw [runFollowUps_cancelled _ _ _ _ rfl]
      dsimp only
      rw [if_pos rfl]
      exact ⟨_, rfl, rfl, rfl⟩
  · intro cfg src s q hnull
    exact ⟨_, processQuestion_null cfg src s q hnull, rfl, rfl⟩

/-- C9: an answer source that throws makes `start()` rethrow and leaves
the session `cancelled`; every rethrowing `start()` from a fresh session
ends `cancelled`. -/
theorem answer_source_throw_propagates :
    (∀ (qs : QuestionSet) (maxFU fuel : Nat) (src : AnswerSource) (s : Session),
        start ⟨qs, maxFU⟩ src fuel (initSession qs) = some (.threw s) →
        s.state = .cancelled) ∧
    (∀ (qs : QuestionSet) (maxFU fuel : Nat) (src : AnswerSource)
        (q : InterviewQuestion) (rest : List InterviewQuestion),
        qs.coreQuestions = q :: rest → src q = .thrown →
        ∃ s, start ⟨qs, maxFU⟩ src fuel (initSession qs) = some (.threw s) ∧
          s.state = .cancelled) := by
  constructor
  · intro qs maxFU fuel src s h
    exact start_threw_cancelled _ src fuel _ s h rfl
  · intro qs maxFU fuel src q rest hq hthrow
    obtain ⟨role, core, fus, est⟩ := qs
    dsimp only at hq
    subst hq
    rw [start_ready_eq _ _ _ _ rfl]
    dsimp only [initSession]
    rw [runCore_cons, processQuestion_thrown _ _ _ _ hthrow]
    exact ⟨_, rfl, rfl⟩

/-- C10: whenever `start()` resolves (also after a null-answer
cancellation), the event log holds exactly one `session_completed` event
and its `questionsRemaining` is `0`. -/
theorem sessionCompleted_event_exactly_once (qs : QuestionSet)
    (maxFU fuel : Nat) (src : AnswerSource) (s : Session)
    (h : start ⟨qs, maxFU⟩ src fuel (initSession qs) = some (.ok s)) :
    s.events.filter (fun e => decide (e.type = .sessionCompleted)) =
      [{ type := .sessionCompleted, questionsRemaining := 0 }] := by
  obtain ⟨s1, s2, hc, hf, hs⟩ := start_ok_cases _ src fuel _ s h rfl
  have h1 := (runCore_ok_inv _ src _ _ _ hc).1
  have h2 := (runFollowUps_ok_inv _ src fuel _ _ hf).1
  have hno : ∀ e ∈ s2.events, e.type ≠ .sessionCompleted := by
    refine h2 (h1 ?_)
    intro e he
    exact absurd he (List.not_mem_nil e)
  subst hs
  have hXev : (if s2.state = .cancelled then s2
      else { s2 with state := .completed }).events = s2.events := by
    split <;> rfl
  have hnil : s2.events.filter
      (fun e => decide (e.type = EventType.sessionCompleted)) = [] := by
    rw [List.filter_eq_nil_iff]
    intro e he
    simp only [decide_eq_true_eq]
    exact hno e he
  simp only [emitProgress, hXev, List.filter_append, hnil]
  simp

/-- C6: after a `start()` that completed, the snapshot carries empty
remaining-id lists and one exchange per answered question (the running
question index counts the answers), and restoring that snapshot into a
fresh session bound to the identical question set reproduces the same
`getQuestionsRemaining()`. -/
theorem snapshot_roundtrip_after_completed_start (qs : QuestionSet)
    (maxFU fuel : Nat) (src : AnswerSource) (s : Session)
    (h : start ⟨qs, maxFU⟩ src fuel (initSession qs) = some (.ok s))
    (hc : s.state = .completed) :
    (createSnapshot ⟨qs, maxFU⟩ s).remainingCoreQuestionIds = [] ∧
    (createSnapshot ⟨qs, maxFU⟩ s).remainingFollowUpIds = [] ∧
    (createSnapshot ⟨qs, maxFU⟩ s).exchanges.length = s.currentQuestionIndex ∧
    ∃ s3, restoreFromSnapshot ⟨qs, maxFU⟩ (initSession qs)
        (createSnapshot ⟨qs, maxFU⟩ s) = .ok s3 ∧
      s3.questionsRemaining = s.questionsRemaining := by
  obtain ⟨s1, s2, hcore, hfu, hs⟩ := start_ok_cases _ src fuel _ s h rfl
  have hinv1 := runCore_ok_inv _ src _ _ _ hcore
  have hinv2 := runFollowUps_ok_inv _ src fuel _ _ hfu
  have hs2state : s2.state ≠ .cancelled := by
    intro hcc
    rw [hs, if_pos hcc] at hc
    have hc2 : s2.state = .completed := hc
    rw [hcc] at hc2
    exact absurd hc2 (by simp)
  have hsE : s = emitProgress { s2 with state := .completed }
      { type := .sessionCompleted, questionsRemaining := 0 } := by
    rw [hs, if_neg hs2state]
  have hs1 : s1.state ≠ .cancelled := by
    intro hcc
    have heq := (runFollowUps_cancelled _ src fuel s1 hcc).symm.trans hfu
    injection heq with heq
    injection heq with heq
    exact hs2state (heq ▸ hcc)
  have hrem1 : s1.remainingCoreQuestions = [] := by
    rcases hinv1.2.2.2 with ⟨hl, hss⟩ | hcc | ⟨_, hrem⟩
    · rw [hss]; exact hl
    · exact absurd hcc hs1
    · exact hrem
  have hrem2 : s2.remainingCoreQuestions = [] := hinv2.2.2.1.trans hrem1
  have hpend2 : s2.pendingFollowUps = [] := by
    rcases hinv2.2.2.2 with hcc | hp
    · exact absurd hcc hs2state
    · exact hp
  have hxi2 : s2.exchanges.length = s2.currentQuestionIndex :=
    hinv2.2.1 (hinv1.2.1 rfl)
  refine ⟨?_, ?_, ?_, ?_⟩
  · dsimp only [createSnapshot]
    rw [hsE]
    dsimp only [emitProgress]
    rw [hrem2]
    rfl
  · dsimp only [createSnapshot]
    rw [hsE]
    dsimp only [emitProgress]
    rw [hpend2]
    rfl
  · dsimp only [createSnapshot]
    rw [hsE]
    dsimp only [emitProgress]
    exact hxi2
  · unfold restoreFromSnapshot
    rw [if_neg (fun hcontra => hcontra.1 rfl)]
    refine ⟨_, rfl, ?_⟩
    dsimp only [createSnapshot, Session.questionsRemaining, emitProgress]
    rw [hsE]
    dsimp only [emitProgress]
    rw [hrem2, hpend2]
    rfl

/-! ### Question generator (`question-generator.ts`) with its upstream
data types (`spec-analyzer.ts`, `types/index.ts`) -/

/-- `AmbiguityLevel`. -/
inductive AmbiguityLevel
  | clear
  | moderate
  | unclear
deriving DecidableEq, Repr, Inhabited

/-- `ScoredDecision` — the fields the question generator reads (the 0-1
`clarityScore` JS number is never consulted by the generator and is
omitted from the embedding). -/
structure ScoredDecision where
  title : String
  category : Category
  description : String
  options : Option (List String) := none
  needsClarification : Bool
  ambiguityLevel : AmbiguityLevel
deriving DecidableEq, Repr

/-- `Ambiguity` (its optional `location` is never read by the generator). -/
structure Ambiguity where
  description : String
  suggestedQuestions : List String
deriving DecidableEq, Repr

/-- `AnalysisResult` — the two lists the generator reads (`decisions`,
`summary` and `stats` are never consulted by it). -/
structure AnalysisResult where
  scoredDecisions : List ScoredDecision
  ambiguities : List Ambiguity
deriving DecidableEq, Repr

/-- `QuestionGeneratorConfig` merged with `DEFAULT_CONFIG`. -/
structure QuestionGeneratorConfig where
  minCoreQuestions : Nat := 5
  maxCoreQuestions : Nat := 8
  maxFollowUpQuestions : Nat := 8
deriving DecidableEq, Repr

/-- `DEFAULT_CONFIG`. -/
def DEFAULT_CONFIG : QuestionGeneratorConfig := {}

/-- One entry of `TECH_LEAD_CORE_TEMPLATES`. -/
structure CoreTemplate where
  template : String
  category : Category
  priority : Nat
deriving DecidableEq, Repr

/-- `TECH_LEAD_CORE_TEMPLATES`. -/
def TECH_LEAD_CORE_TEMPLATES : List CoreTemplate :=
  [ { template := "What are the primary architectural constraints or requirements for this feature?",
      category := .architecture, priority := 1 },
    { template := "Are there any performance requirements or SLAs that need to be considered?",
      category := .performance, priority := 2 },
    { template := "How should this feature integrate with the existing system components?",
      category := .integration, priority := 3 },
    { template := "What data needs to be stored, and what are the access patterns?",
      category := .dataModel, priority := 4 },
    { template := "Are there specific security or compliance requirements to address?",
      category := .security, priority := 5 },
    { template := "What are the expected scale requirements (users, data volume, transactions)?",
      category := .performance, priority := 6 },
    { template := "Are there any technology constraints or preferences for implementation?",
      category := .library, priority := 7 },
    { template := "What trade-offs are you willing to make (speed vs. cost, simplicity vs. flexibility)?",
      category := .general, priority := 8 } ]

/-- One entry of `TECH_LEAD_FOLLOWUP_TEMPLATES`. -/
structure FollowUpTemplate where
  template : String
  category : Category
  triggerCategory : Option Category := none
  triggerKeywords : Option (List String) := none
deriving DecidableEq, Repr

/-- `TECH_LEAD_FOLLOWUP_TEMPLATES`. -/
def TECH_LEAD_FOLLOWUP_TEMPLATES : List FollowUpTemplate :=
  [ { template := "Can you elaborate on the specific \x7bcategory\x7d requirements?",
      category := .general },
    { template := "What happens if \x7baspect\x7d fails? What is the fallback behavior?",
      category := .architecture,
      triggerKeywords := some ["depends on", "relies on", "integration", "external"] },
    { template := "How should the system handle peak load scenarios?",
      category := .performance,
      triggerKeywords := some ["scale", "performance", "high traffic", "concurrent"] },
    { template := "What backward compatibility requirements exist?",
      category := .integration,
      triggerKeywords := some ["existing", "legacy", "migration", "upgrade"] },
    { template := "What authentication/authorization model should be used?",
      category := .security, triggerCategory := some .security },
    { template := "Should the data model support future extensibility?",
      category := .dataModel, triggerCategory := some .dataModel },
    { template := "What caching strategy would be appropriate?",
      category := .performance,
      triggerKeywords := some ["performance", "latency", "fast", "cache"] },
    { template := "Are there any API versioning requirements?",
      category := .apiDesign, triggerCategory := some .apiDesign } ]

/-- `createDecisionQuestion(decision, index)` (never returns null). -/
def createDecisionQuestion (decision : ScoredDecision) (index : Nat) :
    InterviewQuestion :=
  let questionText :=
    match decision.category with
    | .architecture =>
      "Regarding \"" ++ decision.title ++
        "\": What architectural approach would you prefer, and what are your constraints?"
    | .library =>
      "For \"" ++ decision.title ++
        "\": Do you have preferences or requirements for the libraries/frameworks to use?"
    | .pattern =>
      "About \"" ++ decision.title ++
        "\": What design patterns or implementation approaches should be considered?"
    | .integration =>
      "Concerning \"" ++ decision.title ++
        "\": How should this integrate with existing systems?"
    | .dataModel =>
      "For \"" ++ decision.title ++
        "\": What are the data requirements and relationships to consider?"
    | .apiDesign =>
      "Regarding \"" ++ decision.title ++
        "\": What API design principles or constraints apply?"
    | .security =>
      "About \"" ++ decision.title ++
        "\": What security requirements must be addressed?"
    | .performance =>
      "For \"" ++ decision.title ++
        "\": What performance requirements or optimizations are needed?"
    | .general =>
      "Can you clarify the requirements for \"" ++ decision.title ++ "\"?"
  { id := "decision-" ++ toString (index + 1)
    text := questionText
    type := .core
    category := decision.category
    priority := if decision.needsClarification then 1 else 5
    relatedDecisionTitle := some decision.title }

/-- `createAmbiguityQuestion(ambiguity, index)` — `suggestedQuestions[0] ||
fallback`, so an empty first suggestion also falls back. -/
def createAmbiguityQuestion (ambiguity : Ambiguity) (index : Nat) :
    InterviewQuestion :=
  let fallback := "Can you clarify: " ++ ambiguity.description ++ "?"
  let questionText :=
    match ambiguity.suggestedQuestions with
    | [] => fallback
    | q :: _ => if q = "" then fallback else q
  { id := "ambiguity-" ++ toString (index + 1)
    text := questionText
    type := .core
    category := .general
    priority := 2
    relatedAmbiguityDescription := some ambiguity.description }

/-- `createDecisionFollowUp(decision, coreQuestion, index)` — note the
trigger carries only `alwaysAsk := (ambiguityLevel === 'unclear')` and
never trigger keywords. -/
def createDecisionFollowUp (decision : ScoredDecision)
    (coreQuestion : InterviewQuestion) (index : Nat) : InterviewQuestion :=
  let questionText :=
    match decision.options with
    | some (o :: os) =>
      "Between " ++ String.intercalate " and " (o :: os) ++
        ", which would you lean toward and why?"
    | _ =>
      "Can you elaborate on the trade-offs you\x27d consider for \"" ++
        decision.title ++ "\"?"
  { id := "decision-followup-" ++ toString (index + 1)
    text := questionText
    type := .followUp
    category := decision.category
    priority := index + 10
    relatedDecisionTitle := some decision.title
    followUpTrigger := some
      { afterQuestionId := coreQuestion.id
        triggerKeywords := none
        alwaysAsk := decision.ambiguityLevel == .unclear } }

/-- Stable insertion into a priority-sorted list (equal priorities keep
the earlier element first). -/
def insertByPriority (q : InterviewQuestion) :
    List InterviewQuestion → List InterviewQuestion
  | [] => [q]
  | r :: rs =>
    if r.priority < q.priority then r :: insertByPriority q rs else q :: r :: rs

/-- `questions.sort((a, b) => a.priority - b.priority)` — stable per the
ECMAScript specification, modelled by stable insertion sort. -/
def sortByPriority : List InterviewQuestion → List InterviewQuestion
  | [] => []
  | q :: qs => insertByPriority q (sortByPriority qs)

/-- `generateCoreQuestions(analysisResult, role)` : decision questions,
then ambiguity questions, then template fill, priority sort, truncate. -/
def generateCoreQuestions (config : QuestionGeneratorConfig)
    (analysisResult : AnalysisResult) (role : String) :
    List InterviewQuestion :=
  let step1 := analysisResult.scoredDecisions.foldl
    (fun (acc : List InterviewQuestion × List Category) decision =>
      if decision.needsClarification ∧ acc.1.length < config.maxCoreQuestions then
        (acc.1 ++ [createDecisionQuestion decision acc.1.length],
          acc.2 ++ [decision.category])
      else acc)
    ([], [])
  let questions2 := analysisResult.ambiguities.foldl
    (fun questions ambiguity =>
      if questions.length < config.maxCoreQuestions then
        questions ++ [createAmbiguityQuestion ambiguity questions.length]
      else questions)
    step1.1
  let questions3 := TECH_LEAD_CORE_TEMPLATES.foldl
    (fun questions template =>
      if config.maxCoreQuestions ≤ questions.length then questions
      else if config.minCoreQuestions ≤ questions.length ∧
          step1.2.contains template.category then questions
      else
        let question : InterviewQuestion :=
          { id := role ++ "-core-" ++ toString (questions.length + 1)
            text := template.template
            type := .core
            category := template.category
            priority := template.priority }
        if questions.any (fun q => q.text == question.text) then questions
        else questions ++ [question])
    questions2
  (sortByPriority questions3).take config.maxCoreQuestions

/-- Loop body of the decision pass of `generateFollowUpQuestions`. -/
def decisionFollowUpStep (coreQuestions : List InterviewQuestion)
    (followUps : List InterviewQuestion) (decision : ScoredDecision) :
    List InterviewQuestion :=
  if decision.ambiguityLevel = .moderate ∨ decision.ambiguityLevel = .unclear then
    match coreQuestions.find? (fun q =>
        q.relatedDecisionTitle == some decision.title ||
        q.category == decision.category) with
    | some relatedCore =>
      followUps ++ [createDecisionFollowUp decision relatedCore followUps.length]
    | none => followUps
  else followUps

/-- Loop body of the template pass of `generateFollowUpQuestions`. -/
def templateFollowUpStep (config : QuestionGeneratorConfig)
    (coreQuestions : List InterviewQuestion) (role : String)
    (followUps : List InterviewQuestion) (template : FollowUpTemplate) :
    List InterviewQuestion :=
  if config.maxFollowUpQuestions ≤ followUps.length then followUps
  else
    match coreQuestions.find? (fun q =>
        q.category == template.category ||
        some q.category == template.triggerCategory) with
    | some triggerQuestion =>
      let trigger : FollowUpTrigger :=
        match template.triggerKeywords with
        | some ks =>
          { afterQuestionId := triggerQuestion.id, triggerKeywords := some ks,
            alwaysAsk := false }
        | none =>
          { afterQuestionId := triggerQuestion.id, triggerKeywords := none,
            alwaysAsk := true }
      let followUp : InterviewQuestion :=
        { id := role ++ "-followup-" ++ toString (followUps.length + 1)
          text := jsReplaceFirst template.template "\x7bcategory\x7d"
            template.category.toStr
          type := .followUp
          category := template.category
          priority := followUps.length + 10
          followUpTrigger := some trigger }
      if followUps.any (fun q => q.text == followUp.text) then followUps
      else followUps ++ [followUp]
    | none => followUps

/-- `generateFollowUpQuestions(analysisResult, coreQuestions, role)`. -/
def generateFollowUpQuestions (config : QuestionGeneratorConfig)
    (analysisResult : AnalysisResult)
    (coreQuestions : List InterviewQuestion) (role : String) :
    List InterviewQuestion :=
  (TECH_LEAD_FOLLOWUP_TEMPLATES.foldl
      (templateFollowUpStep config coreQuestions role)
      (analysisResult.scoredDecisions.foldl
        (decisionFollowUpStep coreQuestions) [])).take
    config.maxFollowUpQuestions

/-- `generateTechLeadQuestions(analysisResult)`. -/
def generateTechLeadQuestions (config : QuestionGeneratorConfig)
    (analysisResult : AnalysisResult) : QuestionSet :=
  let coreQuestions := generateCoreQuestions config analysisResult "tech-lead"
  let followUpQuestions :=
    generateFollowUpQuestions config analysisResult coreQuestions "tech-lead"
  { role := "tech-lead"
    coreQuestions := coreQuestions
    followUpQuestions := followUpQuestions
    estimatedQuestionCount :=
      { min := coreQuestions.length
        max := coreQuestions.length +
          min followUpQuestions.length config.maxFollowUpQuestions } }

/-! ### C5: the claimed follow-up trigger invariant -/

/-- The invariant the spec claims of every generated follow-up: a trigger
exists, it references a core question id of the same set, and it carries
either a keyword list or the always-ask flag. -/
def triggerWellFormed (core : List InterviewQuestion)
    (f : InterviewQuestion) : Bool :=
  match f.followUpTrigger with
  | none => false
  | some t =>
    core.any (fun q => q.id == t.afterQuestionId) &&
      (t.triggerKeywords.isSome || t.alwaysAsk)

/-- A moderately ambiguous decision that needs clarification. -/
def decC5 : ScoredDecision :=
  { title := "D", category := .architecture, description := "",
    options := none, needsClarification := true, ambiguityLevel := .moderate }

def arC5 : AnalysisResult := { scoredDecisions := [decC5], ambiguities := [] }

/-- C5 counterexample: the decision-derived follow-up for a `moderate`
decision has `alwaysAsk := false` and no trigger keywords, so not every
generated follow-up carries keywords or the always-ask flag. -/
theorem generator_followUp_claim_false :
    ¬ ∀ f ∈ (generateTechLeadQuestions DEFAULT_CONFIG arC5).followUpQuestions,
        triggerWellFormed
          (generateTechLeadQuestions DEFAULT_CONFIG arC5).coreQuestions f = true := by
  decide

/-- Folding a step that only ever appends elements satisfying `P`
preserves `∀ ∈, P`. -/
theorem foldl_append_inv {α : Type} (P : InterviewQuestion → Prop)
    (step : List InterviewQuestion → α → List InterviewQuestion)
    (hstep : ∀ acc a, (∀ f ∈ acc, P f) → ∀ f ∈ step acc a, P f) :
    ∀ (l : List α) (acc : List InterviewQuestion),
      (∀ f ∈ acc, P f) → ∀ f ∈ l.foldl step acc, P f := by
  intro l
  induction l with
  | nil => exact fun acc h => h
  | cons a as ih => exact fun acc h => ih (step acc a) (hstep acc a h)

/-- The amended per-follow-up invariant. -/
def TriggerInv (core : List InterviewQuestion) (f : InterviewQuestion) : Prop :=
  ∃ t, f.followUpTrigger = some t ∧
    (∃ q ∈ core, t.afterQuestionId = q.id) ∧
    (t.triggerKeywords.isSome = true ∨ t.alwaysAsk = true ∨
      f.relatedDecisionTitle.isSome = true)

theorem decisionFollowUpStep_inv (core : List InterviewQuestion) :
    ∀ (acc : List InterviewQuestion) (d : ScoredDecision),
      (∀ f ∈ acc, TriggerInv core f) →
      ∀ f ∈ decisionFollowUpStep core acc d, TriggerInv core f := by
  intro acc d hacc f hf
  unfold decisionFollowUpStep at hf
  split at hf
  · revert hf
    cases hfind : core.find? (fun q =>
        q.relatedDecisionTitle == some d.title || q.category == d.category) with
    | none => exact hacc f
    | some relatedCore =>
      intro hf
      rcases List.mem_append.mp hf with h | h
      · exact hacc f h
      · rw [List.mem_singleton.mp h]
        exact ⟨_, rfl, ⟨relatedCore, List.mem_of_find?_eq_some hfind, rfl⟩,
          Or.inr (Or.inr rfl)⟩
  · exact hacc f hf

theorem templateFollowUpStep_inv (config : QuestionGeneratorConfig)
    (core : List InterviewQuestion) (role : String) :
    ∀ (acc : List InterviewQuestion) (tpl : FollowUpTemplate),
      (∀ f ∈ acc, TriggerInv core f) →
      ∀ f ∈ templateFollowUpStep config core role acc tpl, TriggerInv core f := by
  intro acc tpl hacc f hf
  unfold templateFollowUpStep at hf
  split at hf
  · exact hacc f hf
  · revert hf
    cases hfind : core.find? (fun q =>
        q.category == tpl.category || some q.category == tpl.triggerCategory) with
    | none => exact hacc f
    | some triggerQuestion =>
      intro hf
      dsimp only at hf
      split at hf
      · exact hacc f hf
      · rcases List.mem_append.mp hf with h | h
        · exact hacc f h
        · rw [List.mem_singleton.mp h]
          cases hk : tpl.triggerKeywords with
          | some ks =>
            exact ⟨_, rfl, ⟨triggerQuestion, List.mem_of_find?_eq_some hfind, rfl⟩,
              Or.inl rfl⟩
          | none =>
            exact ⟨_, rfl, ⟨triggerQuestion, List.mem_of_find?_eq_some hfind, rfl⟩,
              Or.inr (Or.inl rfl)⟩

theorem generateFollowUpQuestions_trigger (config : QuestionGeneratorConfig)
    (analysisResult : AnalysisResult) (core : List InterviewQuestion)
    (role : String) :
    ∀ f ∈ generateFollowUpQuestions config analysisResult core role,
      TriggerInv core f := by
  intro f hf
  unfold generateFollowUpQuestions at hf
  have hf2 := List.take_subset _ _ hf
  refine foldl_append_inv (TriggerInv core) (templateFollowUpStep config core role)
    (templateFollowUpStep_inv config core role) TECH_LEAD_FOLLOWUP_TEMPLATES _ ?_ f hf2
  exact foldl_append_inv (TriggerInv core) (decisionFollowUpStep core)
    (decisionFollowUpStep_inv core) analysisResult.scoredDecisions []
    (fun g hg => absurd hg (List.not_mem_nil g))

/-- C5 amended: every generated follow-up has a trigger whose
`afterQuestionId` is the id of a question in the same set's core list,
and it carries trigger keywords or the always-ask flag **or** is a
decision-derived follow-up (which has `alwaysAsk` set only when its
decision was `unclear`). -/
theorem generator_followUp_trigger_references_core
    (config : QuestionGeneratorConfig) (analysisResult : AnalysisResult)
    (f : InterviewQuestion)
    (hf : f ∈ (generateTechLeadQuestions config analysisResult).followUpQuestions) :
    ∃ t, f.followUpTrigger = some t ∧
      (∃ q ∈ (generateTechLeadQuestions config analysisResult).coreQuestions,
        t.afterQuestionId = q.id) ∧
      (t.triggerKeywords.isSome = true ∨ t.alwaysAsk = true ∨
        f.relatedDecisionTitle.isSome = true) :=
  generateFollowUpQuestions_trigger config analysisResult
    (generateCoreQuestions config analysisResult "tech-lead") "tech-lead" f hf

theorem generator_followUp_trigger_references_core_witness :
    ∃ t, ((generateTechLeadQuestions DEFAULT_CONFIG arC5).followUpQuestions.headI).followUpTrigger
        = some t ∧
      (∃ q ∈ (generateTechLeadQuestions DEFAULT_CONFIG arC5).coreQuestions,
        t.afterQuestionId = q.id) ∧
      (t.triggerKeywords.isSome = true ∨ t.alwaysAsk = true ∨
        ((generateTechLeadQuestions DEFAULT_CONFIG arC5).followUpQuestions.headI).relatedDecisionTitle.isSome
          = true) :=
  generator_followUp_trigger_references_core DEFAULT_CONFIG arC5 _ (by decide)

/-- C8: question generation is deterministic — two calls with equal
analysis results and configurations produce core questions identical in
text, category and order (ids included). -/
theorem generate_deterministic (ar1 ar2 : AnalysisResult)
    (cfg1 cfg2 : QuestionGeneratorConfig) (h1 : ar1 = ar2) (h2 : cfg1 = cfg2) :
    (generateTechLeadQuestions cfg1 ar1).coreQuestions.map
        (fun q => (q.text, q.category)) =
      (generateTechLeadQuestions cfg2 ar2).coreQuestions.map
        (fun q => (q.text, q.category)) ∧
    (generateTechLeadQuestions cfg1 ar1).coreQuestions =
      (generateTechLeadQuestions cfg2 ar2).coreQuestions := by
  subst h1
  subst h2
  exact ⟨rfl, rfl⟩

theorem generate_deterministic_witness :
    (generateTechLeadQuestions DEFAULT_CONFIG arC5).coreQuestions.map
        (fun q => (q.text, q.category)) =
      (generateTechLeadQuestions DEFAULT_CONFIG arC5).coreQuestions.map
        (fun q => (q.text, q.category)) ∧
    (generateTechLeadQuestions DEFAULT_CONFIG arC5).coreQuestions =
      (generateTechLeadQuestions DEFAULT_CONFIG arC5).coreQuestions :=
  generate_deterministic arC5 arC5 DEFAULT_CONFIG DEFAULT_CONFIG rfl rfl

/-! ### C7: `MapAnswerProvider` -/

def pC7 : MapAnswerProvider := { answers := [("q1", "a")], defaultAnswer := some "d" }

def qC7 : InterviewQuestion :=
  { id := "q2", text := "q1?", type := .core, category := .general, priority := 1 }

/-- C7 counterexample: question id `"q2"` is not a key of the map, yet
`provideAnswer` returns `"a"` via the text-matching fallback (the map key
`"q1"` occurs in the question text `"q1?"`), not the configured default
`"d"`. -/
theorem mapProvider_default_claim_false :
    (∀ kv ∈ pC7.answers, kv.1 ≠ qC7.id) ∧
    MapAnswerProvider.provideAnswer pC7 qC7 = some "a" ∧
    MapAnswerProvider.provideAnswer pC7 qC7 ≠ pC7.defaultAnswer := by
  decide

/-- C7 amended: an id hit returns the mapped answer; otherwise the
provider first scans the entries in insertion order for one whose key and
the question text contain one another and returns that entry's value; the
default (null when unconfigured) is returned only when no entry
text-matches. -/
theorem mapProvider_provideAnswer_spec :
    (∀ (p : MapAnswerProvider) (q : InterviewQuestion) (a : String),
        p.answers.lookup q.id = some a →
        MapAnswerProvider.provideAnswer p q = some a) ∧
    (∀ (p : MapAnswerProvider) (q : InterviewQuestion) (kv : String × String),
        p.answers.lookup q.id = none →
        p.answers.find? (fun kv =>
          jsIncludes q.text kv.1 || jsIncludes kv.1 q.text) = some kv →
        MapAnswerProvider.provideAnswer p q = some kv.2) ∧
    (∀ (p : MapAnswerProvider) (q : InterviewQuestion),
        p.answers.lookup q.id = none →
        (∀ kv ∈ p.answers,
          jsIncludes q.text kv.1 = false ∧ jsIncludes kv.1 q.text = false) →
        MapAnswerProvider.provideAnswer p q = p.defaultAnswer) := by
  refine ⟨?_, ?_, ?_⟩
  · intro p q a h
    unfold MapAnswerProvider.provideAnswer
    rw [h]
  · intro p q kv h1 h2
    unfold MapAnswerProvider.provideAnswer
    rw [h1, h2]
  · intro p q h1 h2
    unfold MapAnswerProvider.provideAnswer
    rw [h1]
    have hnone : p.answers.find? (fun kv =>
        jsIncludes q.text kv.1 || jsIncludes kv.1 q.text) = none := by
      rw [List.find?_eq_none]
      intro kv hkv
      simp [(h2 kv hkv).1, (h2 kv hkv).2]
    rw [hnone]

def pC7w : MapAnswerProvider := { answers := [("alpha", "v")], defaultAnswer := some "d" }

def qC7w : InterviewQuestion :=
  { id := "zz", text := "qq", type := .core, category := .general, priority := 1 }

theorem mapProvider_provideAnswer_spec_witness :
    MapAnswerProvider.provideAnswer pC7w qC7w = pC7w.defaultAnswer :=
  mapProvider_provideAnswer_spec.2.2 pC7w qC7w (by decide) (by decide)

/-! ### Concrete witness runs -/

def q31 : InterviewQuestion :=
  { id := "core-1", text := "Q1", type := .core, category := .general, priority := 1 }

def q32 : InterviewQuestion :=
  { id := "core-2", text := "Q2", type := .core, category := .general, priority := 2 }

def q33 : InterviewQuestion :=
  { id := "core-3", text := "Q3", type := .core, category := .general, priority := 3 }

def qs3 : QuestionSet :=
  { role := "tech-lead"
    coreQuestions := [q31, q32, q33]
    followUpQuestions := []
    estimatedQuestionCount := { min := 3, max := 3 } }

/-- Answer source that resolves every question with `"a"`. -/
def src3 : AnswerSource := fun _ => .value (some "a")

/-- Answer source that returns the null cancellation signal. -/
def srcNull : AnswerSource := fun _ => .value none

/-- Answer source whose promise rejects. -/
def srcThrow : AnswerSource := fun _ => .thrown

/-- The session in which the `qs3`/`src3` run resolves. -/
def s3final : Session :=
  match start ⟨qs3, 8⟩ src3 0 (initSession qs3) with
  | some (.ok s) => s
  | _ => initSession qs3

theorem start_core_only_completes_witness :
    ∃ s, start ⟨qs3, 8⟩ src3 0 (initSession qs3) = some (.ok s) ∧
      s.state = .completed ∧
      s.exchanges.length = qs3.coreQuestions.length ∧
      s.exchanges.map (fun ex => ex.question) =
        qs3.coreQuestions.map (fun q => q.text) :=
  start_core_only_completes qs3 8 0 src3 (fun _ => "a") rfl (fun _ => rfl)

theorem cancellation_signal_stops_session_witness :
    ∃ s, start ⟨qs3, 8⟩ srcNull 0 (initSession qs3) = some (.ok s) ∧
      s.exchanges = [] ∧ s.state = .cancelled :=
  cancellation_signal_stops_session.1 qs3 8 0 srcNull q31 [q32, q33] rfl rfl

theorem answer_source_throw_propagates_witness :
    ∃ s, start ⟨qs3, 8⟩ srcThrow 0 (initSession qs3) = some (.threw s) ∧
      s.state = .cancelled :=
  answer_source_throw_propagates.2 qs3 8 0 srcThrow q31 [q32, q33] rfl rfl

theorem sessionCompleted_event_exactly_once_witness :
    s3final.events.filter (fun e => decide (e.type = .sessionCompleted)) =
      [{ type := .sessionCompleted, questionsRemaining := 0 }] :=
  sessionCompleted_event_exactly_once qs3 8 0 src3 s3final (by rfl)

theorem snapshot_roundtrip_after_completed_start_witness :
    (createSnapshot ⟨qs3, 8⟩ s3final).remainingCoreQuestionIds = [] ∧
    (createSnapshot ⟨qs3, 8⟩ s3final).remainingFollowUpIds = [] ∧
    (createSnapshot ⟨qs3, 8⟩ s3final).exchanges.length =
      s3final.currentQuestionIndex ∧
    ∃ s3, restoreFromSnapshot ⟨qs3, 8⟩ (initSession qs3)
        (createSnapshot ⟨qs3, 8⟩ s3final) = .ok s3 ∧
      s3.questionsRemaining = s3final.questionsRemaining :=
  snapshot_roundtrip_after_completed_start qs3 8 0 src3 s3final (by rfl) (by rfl)

theorem selectFollowUps_mem_iff_witness :
    qC1f1 ∈ selectFollowUps "ok" "c1" [qC1f1, qC1f2] ↔
      qC1f1 ∈ [qC1f1, qC1f2] ∧ ∃ t, qC1f1.followUpTrigger = some t ∧
        t.afterQuestionId = "c1" ∧
        (t.alwaysAsk = true ∨
          ∃ k ∈ t.triggerKeywords.getD [],
            jsIncludes (jsToLower "ok") (jsToLower k) = true) :=
  selectFollowUps_mem_iff "ok" "c1" [qC1f1, qC1f2] qC1f1

end PS
